import Mathlib

/-!
Verification of the observeinc/google-cloud-functions collector.

This file gives a shallow embedding of the paginated listing engine
(`safe_list` from `lib.py` and `main.py`), the export trigger
(`export_assets` from `main.py`) and the drain step
(`process_gcs_directory` from `main.py`), and proves properties of them.

External services (the listing API, Cloud Storage, Pub/Sub, Cloud Tasks,
`json.loads`) are modelled as explicit parameters; each embedded function
records its externally visible actions in an explicit event trace.
-/

/-! ## Keyword-argument mappings (Python dicts of strings) -/

/-- A Python keyword-argument dict, modelled as an association list with
first-occurrence lookup semantics. -/
abbrev Kwargs := List (String × String)

/-- Dict lookup: value of the first binding of `k`, if any. -/
def getKey : Kwargs → String → Option String
  | [], _ => none
  | (k', v') :: rest, k => if k' = k then some v' else getKey rest k

/-- Dict assignment `m[k] = v`: replace the first binding of `k`, or append
a new binding if `k` is absent. -/
def setKey : Kwargs → String → String → Kwargs
  | [], k, v => [(k, v)]
  | (k', v') :: rest, k, v =>
    if k' = k then (k, v) :: rest else (k', v') :: setKey rest k v

theorem getKey_setKey_same (m : Kwargs) (k v : String) :
    getKey (setKey m k v) k = some v := by
  induction m with
  | nil => simp [setKey, getKey]
  | cons p rest ih =>
    by_cases h : p.1 = k
    · simp [setKey, getKey, h]
    · simp [setKey, getKey, h, ih]

theorem getKey_setKey_other (m : Kwargs) (k k' v : String) (h : k' ≠ k) :
    getKey (setKey m k v) k' = getKey m k' := by
  induction m with
  | nil => simp [setKey, getKey, Ne.symm h]
  | cons p rest ih =>
    by_cases hp : p.1 = k
    · subst hp
      simp [setKey, getKey, Ne.symm h]
    · simp only [setKey, if_neg hp, getKey]
      by_cases hq : p.1 = k'
      · simp [hq]
      · simp [hq, ih]

/-! ## The paginated listing engine: `safe_list` -/

/-- One page of results from `resource.list(**list_kwargs).execute()`:
the items stored under the requested key, and the `nextPageToken` field
(`""` when absent or empty — both terminate the fetch). -/
structure Page where
  items : List String
  nextPageToken : String

/-- Outcome of a `safe_list` run: normal termination (a page with an empty
`nextPageToken` was reached) or the `raise Exception("max_depth exceeded")`
at the end of the loop. -/
inductive FetchOutcome
  | success
  | maxDepthExceeded
deriving DecidableEq, Repr

/-- Observable result of a `safe_list` run: the records yielded in order,
the final state of the caller's `list_kwargs` dict, the log of
`time.sleep` pauses (loop index paired with duration in seconds), the
number of page requests issued, and the outcome. -/
structure FetchResult where
  records : List String
  kwargs : Kwargs
  sleeps : List (Nat × Nat)
  calls : Nat
  outcome : FetchOutcome
deriving DecidableEq, Repr

/-- The loop of `lib.py`'s `safe_list`, at loop index `i` with
`fuel = max_depth - i` iterations remaining.  Each iteration optionally
sleeps (when `i % 95 == 0 and i != 0`), issues one page request, yields
the page's items, stops successfully on an empty `nextPageToken`, and
otherwise writes the token into `list_kwargs["pageToken"]` and continues.
Exhausting the range raises `max_depth exceeded`. -/
def lib_safe_listAux (resource : Kwargs → Page) : Nat → Kwargs → Nat → FetchResult
  | 0, kw, _ =>
    { records := [], kwargs := kw, sleeps := [], calls := 0,
      outcome := .maxDepthExceeded }
  | fuel + 1, kw, i =>
    let sl : List (Nat × Nat) := if i % 95 == 0 && i != 0 then [(i, 60)] else []
    let page := resource kw
    if page.nextPageToken = "" then
      { records := page.items, kwargs := kw, sleeps := sl, calls := 1,
        outcome := .success }
    else
      let kw2 := setKey kw "pageToken" page.nextPageToken
      let rest := lib_safe_listAux resource fuel kw2 (i + 1)
      { records := page.items ++ rest.records, kwargs := rest.kwargs,
        sleeps := sl ++ rest.sleeps, calls := rest.calls + 1,
        outcome := rest.outcome }

/-- `safe_list` from `lib.py`: rate-limited cursor-following iteration,
defaulting to `max_depth = 1000`. -/
def lib_safe_list (resource : Kwargs → Page) (list_kwargs : Kwargs)
    (max_depth : Nat := 1000) : FetchResult :=
  lib_safe_listAux resource max_depth list_kwargs 0

/-- The loop of `main.py`'s `safe_list`, which is `lib.py`'s loop without
the rate-limiting sleep. -/
def main_safe_listAux (resource : Kwargs → Page) : Nat → Kwargs → Nat → FetchResult
  | 0, kw, _ =>
    { records := [], kwargs := kw, sleeps := [], calls := 0,
      outcome := .maxDepthExceeded }
  | fuel + 1, kw, i =>
    let page := resource kw
    if page.nextPageToken = "" then
      { records := page.items, kwargs := kw, sleeps := [], calls := 1,
        outcome := .success }
    else
      let kw2 := setKey kw "pageToken" page.nextPageToken
      let rest := main_safe_listAux resource fuel kw2 (i + 1)
      { records := page.items ++ rest.records, kwargs := rest.kwargs,
        sleeps := rest.sleeps, calls := rest.calls + 1,
        outcome := rest.outcome }

/-- `safe_list` from `main.py`, defaulting to `max_depth = 1000`. -/
def main_safe_list (resource : Kwargs → Page) (list_kwargs : Kwargs)
    (max_depth : Nat := 1000) : FetchResult :=
  main_safe_listAux resource max_depth list_kwargs 0

/-- One cursor-advance step: store the current page's `nextPageToken` into
`list_kwargs["pageToken"]`. -/
def stepKwargs (resource : Kwargs → Page) (kw : Kwargs) : Kwargs :=
  setKey kw "pageToken" (resource kw).nextPageToken

/-- The `list_kwargs` dict as it stands before the `(n+1)`-st page request
of a fetch that started from `kw`. -/
def kwargsAt (resource : Kwargs → Page) (kw : Kwargs) : Nat → Kwargs
  | 0 => kw
  | n + 1 => stepKwargs resource (kwargsAt resource kw n)

theorem kwargsAt_shift (resource : Kwargs → Page) (kw : Kwargs) (n : Nat) :
    kwargsAt resource (stepKwargs resource kw) n = kwargsAt resource kw (n + 1) := by
  induction n with
  | zero => rfl
  | succ n ih => simp [kwargsAt, ih]

/-- The two `safe_list` variants agree on everything except the sleep log,
which `main.py`'s variant never populates. -/
theorem main_safe_listAux_eq (resource : Kwargs → Page) (fuel : Nat) :
    ∀ kw i, main_safe_listAux resource fuel kw i =
      { lib_safe_listAux resource fuel kw i with sleeps := [] } := by
  induction fuel with
  | zero => intro kw i; rfl
  | succ fuel ih =>
    intro kw i
    simp only [main_safe_listAux, lib_safe_listAux]
    by_cases h : (resource kw).nextPageToken = ""
    · simp [h]
    · simp [h, ih]

/-- When every page of the upstream source carries a non-empty
`nextPageToken`, the loop consumes its whole range: one page request per
remaining iteration, ending in `max_depth exceeded`. -/
theorem lib_safe_listAux_exhaust (resource : Kwargs → Page)
    (h : ∀ k, (resource k).nextPageToken ≠ "") (fuel : Nat) :
    ∀ kw i, (lib_safe_listAux resource fuel kw i).outcome = .maxDepthExceeded ∧
      (lib_safe_listAux resource fuel kw i).calls = fuel := by
  induction fuel with
  | zero => intro kw i; exact ⟨rfl, rfl⟩
  | succ fuel ih =>
    intro kw i
    simp only [lib_safe_listAux, if_neg (h kw)]
    exact ⟨(ih _ _).1, by rw [(ih _ _).2]⟩

/-- When the page reached before the `(n+1)`-st request is the first one
with an empty `nextPageToken`, and `n` is within the remaining range, the
loop terminates successfully after exactly `n + 1` page requests. -/
theorem lib_safe_listAux_success (resource : Kwargs → Page) :
    ∀ n fuel kw i, n < fuel →
      (∀ m, m < n → (resource (kwargsAt resource kw m)).nextPageToken ≠ "") →
      (resource (kwargsAt resource kw n)).nextPageToken = "" →
      (lib_safe_listAux resource fuel kw i).outcome = .success ∧
      (lib_safe_listAux resource fuel kw i).calls = n + 1 := by
  intro n
  induction n with
  | zero =>
    intro fuel kw i hlt _ hterm
    obtain ⟨f, rfl⟩ : ∃ f, fuel = f + 1 := ⟨fuel - 1, by omega⟩
    simp only [kwargsAt] at hterm
    simp only [lib_safe_listAux, if_pos hterm]
    exact ⟨by simp, by simp⟩
  | succ n ih =>
    intro fuel kw i hlt hne hterm
    obtain ⟨f, rfl⟩ : ∃ f, fuel = f + 1 := ⟨fuel - 1, by omega⟩
    have h0 : (resource kw).nextPageToken ≠ "" := by
      have := hne 0 (Nat.succ_pos n)
      simpa [kwargsAt] using this
    simp only [lib_safe_listAux, if_neg h0]
    rw [show setKey kw "pageToken" (resource kw).nextPageToken = stepKwargs resource kw from rfl]
    have hrec := ih f (stepKwargs resource kw) (i + 1) (by omega)
      (by
        intro m hm
        rw [kwargsAt_shift]
        exact hne (m + 1) (by omega))
      (by
        rw [kwargsAt_shift]
        exact hterm)
    exact ⟨hrec.1, by rw [hrec.2]⟩

/-- The sleep log of the rate-limited loop is exactly one 60-second pause
at every loop index `j` (over the indices actually executed) with
`j % 95 == 0 && j != 0`. -/
theorem lib_safe_listAux_sleeps (resource : Kwargs → Page) (fuel : Nat) :
    ∀ kw i, (lib_safe_listAux resource fuel kw i).sleeps =
      ((List.range' i (lib_safe_listAux resource fuel kw i).calls).filter
        (fun j => j % 95 == 0 && j != 0)).map (fun j => (j, 60)) := by
  induction fuel with
  | zero => intro kw i; rfl
  | succ fuel ih =>
    intro kw i
    simp only [lib_safe_listAux]
    by_cases h : (resource kw).nextPageToken = ""
    · simp only [if_pos h]
      rw [List.range'_succ]
      show (if i % 95 == 0 && i != 0 then [(i, 60)] else []) = _
      by_cases hp : (i % 95 == 0 && i != 0) = true
      · simp [List.filter, hp]
      · simp [List.filter, hp]
    · simp only [if_neg h]
      show (if i % 95 == 0 && i != 0 then [(i, 60)] else []) ++ _ = _
      rw [List.range'_succ, ih]
      by_cases hp : (i % 95 == 0 && i != 0) = true
      · simp [List.filter, hp]
      · simp [List.filter, hp]

/-- The final state of `list_kwargs`: after a successful run of `c` calls
it is the dict as seeded for the final (terminal) request, i.e.
`kwargsAt (c - 1)`; after exhaustion with `c` calls every iteration stored
a token, so it is `kwargsAt c`. -/
theorem lib_safe_listAux_kwargs (resource : Kwargs → Page) (fuel : Nat) :
    ∀ kw i,
      ((lib_safe_listAux resource fuel kw i).outcome = .success →
        1 ≤ (lib_safe_listAux resource fuel kw i).calls ∧
        (lib_safe_listAux resource fuel kw i).kwargs =
          kwargsAt resource kw ((lib_safe_listAux resource fuel kw i).calls - 1)) ∧
      ((lib_safe_listAux resource fuel kw i).outcome = .maxDepthExceeded →
        (lib_safe_listAux resource fuel kw i).kwargs =
          kwargsAt resource kw (lib_safe_listAux resource fuel kw i).calls) := by
  induction fuel with
  | zero =>
    intro kw i
    exact ⟨fun h => by simp [lib_safe_listAux] at h, fun _ => rfl⟩
  | succ fuel ih =>
    intro kw i
    simp only [lib_safe_listAux]
    by_cases h : (resource kw).nextPageToken = ""
    · simp only [if_pos h]
      exact ⟨fun _ => ⟨Nat.le_refl 1, rfl⟩, fun hc => by simp at hc⟩
    · simp only [if_neg h]
      rw [show setKey kw "pageToken" (resource kw).nextPageToken = stepKwargs resource kw from rfl]
      obtain ⟨ihs, ihm⟩ := ih (stepKwargs resource kw) (i + 1)
      constructor
      · intro hs
        obtain ⟨hc1, hkw⟩ := ihs hs
        refine ⟨by omega, ?_⟩
        rw [hkw]
        have : (lib_safe_listAux resource fuel (stepKwargs resource kw) (i + 1)).calls + 1 - 1 =
            ((lib_safe_listAux resource fuel (stepKwargs resource kw) (i + 1)).calls - 1) + 1 := by
          omega
        rw [this, ← kwargsAt_shift]
      · intro hm
        rw [ihm hm, kwargsAt_shift]

/-- Keys other than `"pageToken"` are untouched by cursor advancement. -/
theorem getKey_kwargsAt (resource : Kwargs → Page) (kw : Kwargs) (n : Nat)
    (key : String) (h : key ≠ "pageToken") :
    getKey (kwargsAt resource kw n) key = getKey kw key := by
  induction n with
  | zero => rfl
  | succ n ih =>
    simp only [kwargsAt, stepKwargs]
    rw [getKey_setKey_other _ _ _ _ h, ih]

/-- After at least one cursor advancement, `list_kwargs["pageToken"]` holds
the `nextPageToken` of the page fetched just before the advancement. -/
theorem getKey_kwargsAt_pageToken (resource : Kwargs → Page) (kw : Kwargs) (n : Nat) :
    getKey (kwargsAt resource kw (n + 1)) "pageToken" =
      some ((resource (kwargsAt resource kw n)).nextPageToken) := by
  simp only [kwargsAt, stepKwargs]
  exact getKey_setKey_same _ _ _

/-! ## Test fixtures: deterministic fake upstream sources -/

/-- A fake upstream whose every page carries a non-empty cursor. -/
def constRes (_ : Kwargs) : Page :=
  { items := ["r"], nextPageToken := "t" }

/-- A fake upstream with exactly two pages: the first returns cursor
`"t1"`, the page reached through `"t1"` is terminal. -/
def stopRes (kw : Kwargs) : Page :=
  if getKey kw "pageToken" = some "t1" then { items := ["b"], nextPageToken := "" }
  else { items := ["a"], nextPageToken := "t1" }

/-- A fake upstream with exactly 200 pages: the cursor grows by one
character per page and the 200th page is terminal. -/
def pagesRes200 (kw : Kwargs) : Page :=
  let t := (getKey kw "pageToken").getD ""
  if t.length < 199 then { items := ["r"], nextPageToken := t ++ "x" }
  else { items := ["r"], nextPageToken := "" }

/-- C2: with the default `max_depth` of 1000, a source whose every page
carries a non-empty `nextPageToken` makes `safe_list` (both the `lib.py`
and the `main.py` variant) issue exactly 1000 page requests — hence no
more than 1000 — and raise `max_depth exceeded` rather than terminate
normally; while if the page reached before the `(n+1)`-st request
(`n < 1000`) is the first with an empty or absent `nextPageToken`, the
fetch terminates successfully after that page, having issued exactly
`n + 1` requests and no more. -/
theorem safe_list_pagination_bounds (resource : Kwargs → Page) (kw : Kwargs) :
    ((∀ k, (resource k).nextPageToken ≠ "") →
      (lib_safe_list resource kw).outcome = FetchOutcome.maxDepthExceeded ∧
      (lib_safe_list resource kw).calls = 1000 ∧
      (main_safe_list resource kw).outcome = FetchOutcome.maxDepthExceeded ∧
      (main_safe_list resource kw).calls = 1000) ∧
    (∀ n, n < 1000 →
      (∀ m, m < n → (resource (kwargsAt resource kw m)).nextPageToken ≠ "") →
      (resource (kwargsAt resource kw n)).nextPageToken = "" →
      (lib_safe_list resource kw).outcome = FetchOutcome.success ∧
      (lib_safe_list resource kw).calls = n + 1 ∧
      (main_safe_list resource kw).outcome = FetchOutcome.success ∧
      (main_safe_list resource kw).calls = n + 1) := by
  simp only [lib_safe_list, main_safe_list, main_safe_listAux_eq]
  constructor
  · intro h
    have hl := lib_safe_listAux_exhaust resource h 1000 kw 0
    exact ⟨hl.1, hl.2, hl.1, hl.2⟩
  · intro n hn hne hterm
    have hl := lib_safe_listAux_success resource n 1000 kw 0 hn hne hterm
    exact ⟨hl.1, hl.2, hl.1, hl.2⟩

/-- Witness for C2: the always-paginating fake source exhausts the budget
after exactly 1000 calls, and a two-page fake source (terminal cursor on
its second page) stops successfully after exactly 2 calls. -/
theorem safe_list_pagination_bounds_witness :
    (lib_safe_list constRes []).outcome = FetchOutcome.maxDepthExceeded ∧
    (lib_safe_list constRes []).calls = 1000 ∧
    (main_safe_list constRes []).outcome = FetchOutcome.maxDepthExceeded ∧
    (main_safe_list constRes []).calls = 1000 ∧
    (lib_safe_list stopRes []).outcome = FetchOutcome.success ∧
    (lib_safe_list stopRes []).calls = 2 ∧
    (main_safe_list stopRes []).outcome = FetchOutcome.success ∧
    (main_safe_list stopRes []).calls = 2 := by
  have h1 := (safe_list_pagination_bounds constRes []).1
    (fun _ => show "t" ≠ "" by decide)
  have h2 := (safe_list_pagination_bounds stopRes []).2 1 (by omega)
    (fun m hm => by
      have hm0 : m = 0 := by omega
      subst hm0
      decide)
    (by decide)
  exact ⟨h1.1, h1.2.1, h1.2.2.1, h1.2.2.2, h2.1, h2.2.1, h2.2.2.1, h2.2.2.2⟩

/-- C3: a fetch of exactly 200 pages through the rate-limited `safe_list`
of `lib.py` pauses exactly twice — at loop indices 95 and 190, i.e.
immediately before the 96th and the 191st page request (1-indexed) — each
pause being a `time.sleep(60)` of the 60-second window, and no pause
occurs before the first page request (no entry at index 0). -/
theorem safe_list_rate_limit_pauses (resource : Kwargs → Page) (kw : Kwargs)
    (d : Nat) (h : (lib_safe_list resource kw d).calls = 200) :
    (lib_safe_list resource kw d).sleeps = [(95, 60), (190, 60)] ∧
    (∀ p ∈ (lib_safe_list resource kw d).sleeps, 60 ≤ p.2) ∧
    (∀ t, ((0 : Nat), t) ∉ (lib_safe_list resource kw d).sleeps) := by
  have hs : (lib_safe_list resource kw d).sleeps =
      ((List.range' 0 200).filter (fun j => j % 95 == 0 && j != 0)).map
        (fun j => (j, 60)) := by
    simp only [lib_safe_list] at h ⊢
    rw [lib_safe_listAux_sleeps resource d kw 0, h]
  have hs2 : ((List.range' 0 200).filter (fun j => j % 95 == 0 && j != 0)).map
      (fun j => ((j : Nat), (60 : Nat))) = [(95, 60), (190, 60)] := by decide
  rw [hs, hs2]
  refine ⟨rfl, by decide, fun t => by simp⟩

set_option maxRecDepth 100000 in
/-- Witness for C3: the 200-page fake source issues exactly 200 page
requests and sleeps exactly at indices 95 and 190. -/
theorem safe_list_rate_limit_pauses_witness :
    (lib_safe_list pagesRes200 []).calls = 200 ∧
    (lib_safe_list pagesRes200 []).sleeps = [(95, 60), (190, 60)] :=
  ⟨by decide, (safe_list_rate_limit_pauses pagesRes200 [] 1000 (by decide)).1⟩

/-- C10: `safe_list` mutates the caller's `list_kwargs` dict in place:
every key other than `"pageToken"` keeps its original value, and when the
fetch terminates normally after at least two page requests,
`list_kwargs["pageToken"]` equals the most recently followed cursor — the
`nextPageToken` of the penultimate page, which seeded the final page
request. -/
theorem safe_list_kwargs_mutation (resource : Kwargs → Page) (kw : Kwargs) (d : Nat) :
    (∀ key, key ≠ "pageToken" →
      getKey (lib_safe_list resource kw d).kwargs key = getKey kw key) ∧
    ((lib_safe_list resource kw d).outcome = FetchOutcome.success →
      2 ≤ (lib_safe_list resource kw d).calls →
      getKey (lib_safe_list resource kw d).kwargs "pageToken" =
        some ((resource (kwargsAt resource kw
          ((lib_safe_list resource kw d).calls - 2))).nextPageToken)) := by
  simp only [lib_safe_list]
  obtain ⟨hsucc, hmax⟩ := lib_safe_listAux_kwargs resource d kw 0
  constructor
  · intro key hk
    cases ho : (lib_safe_listAux resource d kw 0).outcome
    case success => rw [(hsucc ho).2, getKey_kwargsAt _ _ _ _ hk]
    case maxDepthExceeded => rw [hmax ho, getKey_kwargsAt _ _ _ _ hk]
  · intro ho hc
    obtain ⟨h1, hkw⟩ := hsucc ho
    rw [hkw]
    have hcalls : (lib_safe_listAux resource d kw 0).calls - 1 =
        ((lib_safe_listAux resource d kw 0).calls - 2) + 1 := by omega
    rw [hcalls, getKey_kwargsAt_pageToken]

/-- Witness for C10: after the two-page fetch, the unrelated key `"name"`
is unchanged and `"pageToken"` holds the cursor that seeded the final
page request. -/
theorem safe_list_kwargs_mutation_witness :
    getKey (lib_safe_list stopRes [("name", "p")]).kwargs "name" = some "p" ∧
    getKey (lib_safe_list stopRes [("name", "p")]).kwargs "pageToken" =
      some ((stopRes (kwargsAt stopRes [("name", "p")]
        ((lib_safe_list stopRes [("name", "p")]).calls - 2))).nextPageToken) :=
  ⟨(safe_list_kwargs_mutation stopRes [("name", "p")] 1000).1 "name" (by decide),
   (safe_list_kwargs_mutation stopRes [("name", "p")] 1000).2 (by decide) (by decide)⟩

/-! ## The drain step: `process_gcs_directory` -/

/-- Helper for `splitOnChar`: walk the characters, cutting at each
separator; `acc` holds the current segment reversed. -/
def splitOnCharAux (c : Char) : List Char → List Char → List String
  | [], acc => [String.mk acc.reverse]
  | x :: xs, acc =>
    if x = c then String.mk acc.reverse :: splitOnCharAux c xs []
    else splitOnCharAux c xs (x :: acc)

/-- Python's `str.split(sep)` for a one-character separator: splits at
every occurrence, keeping empty segments (`"".split(sep) == [""]`). -/
def splitOnChar (c : Char) (s : String) : List String :=
  splitOnCharAux c s.data []

/-- Python's `str.startswith`. -/
def strStartsWith (s t : String) : Bool :=
  s.data.take t.data.length == t.data

/-- Python's `str.endswith`. -/
def strEndsWith (s t : String) : Bool :=
  s.data.reverse.take t.data.length == t.data.reverse

/-- A stored object: its name within the bucket and its raw content
(`download_as_bytes`, modelled as a string). -/
structure Blob where
  name : String
  content : String
deriving DecidableEq, Repr

/-- One message published to Pub/Sub by the drain step, with its
side-channel attributes. -/
structure PubMsg where
  data : String
  observe_gcp_kind : String
  observe_gcp_asset_type : String
  observe_gcp_content_type : String
  observe_original_length : Nat
deriving DecidableEq, Repr

/-- An externally visible action of the drain step. -/
inductive GcsEv
  | publish (m : PubMsg)
  | delete (name : String)
deriving DecidableEq, Repr

/-- The `observe_gcp_kind` attribute attached to every drained record. -/
def exportAssetsKind : String :=
  "https://cloud.google.com/asset-inventory/docs/reference/rest/v1/TopLevel/exportAssets"

/-- One iteration of the drain loop over a listed blob, parameterised by
`loads`, the model of `json.loads` on one line (`none` = raises
`JSONDecodeError`; `some s` = parses, and `json.dumps` of the parsed
object is `s`).  Returns `none` when the blob is skipped by a `continue`
(the marker itself, a folder placeholder, empty content, a line that
fails JSON parsing, or a path with fewer than 5 segments) and
`some msgs` when its records are published — in which case the blob is
also deleted. -/
def drainBlob (loads : String → Option String) (lockName : String) (b : Blob) :
    Option (List PubMsg) :=
  if b.name = lockName then none
  else if strEndsWith b.name "/" then none
  else if b.content = "" then none
  else
    match ((splitOnChar '\n' b.content).filter (fun l => l ≠ "")).mapM loads with
    | none => none
    | some objs =>
      let folders := splitOnChar '/' b.name
      if folders.length < 5 then none
      else
        some (objs.map (fun message =>
          { data := message, observe_gcp_kind := exportAssetsKind,
            observe_gcp_asset_type := folders.getD 3 "",
            observe_gcp_content_type := folders.getD 2 "",
            observe_original_length := message.length }))

/-- The drain loop: for each listed blob in order, either skip it or
publish its records and then delete it. -/
def drainEvents (loads : String → Option String) (lockName : String) :
    List Blob → List GcsEv
  | [] => []
  | b :: rest =>
    match drainBlob loads lockName b with
    | none => drainEvents loads lockName rest
    | some msgs =>
      msgs.map GcsEv.publish ++ [GcsEv.delete b.name] ++ drainEvents loads lockName rest

/-- Result of a `process_gcs_directory` run: its action trace and the
returned `(message, status)` pair. -/
structure DrainResult where
  events : List GcsEv
  response : String × Nat
deriving DecidableEq, Repr

/-- Response when the marker object is already absent. -/
def lockAbsentResponse : String × Nat :=
  ("Lockfile isn\x27t present so assuming all files were previously processed successfully.",
   200)

/-- Response after a completed drain. -/
def drainSuccessResponse : String × Nat :=
  ("Asset export operation complete. Files processed successfully.", 200)

/-- `process_gcs_directory` from `main.py`: if the marker
`<pfx>operation_name.txt` is absent, exit early with success; otherwise
drain every listed blob under the prefix and finally delete the marker. -/
def process_gcs_directory (loads : String → Option String) (bucket : List Blob)
    (pfx : String) : DrainResult :=
  let lockName := pfx ++ "operation_name.txt"
  if bucket.any (fun b => b.name = lockName) then
    { events := drainEvents loads lockName
        (bucket.filter (fun b => strStartsWith b.name pfx)) ++ [GcsEv.delete lockName],
      response := drainSuccessResponse }
  else
    { events := [], response := lockAbsentResponse }

/-- Names deleted by a trace, in order. -/
def deletedNames (evs : List GcsEv) : List String :=
  evs.filterMap (fun e => match e with | .delete n => some n | _ => none)

/-- Messages published by a trace, in order. -/
def publishedMsgs (evs : List GcsEv) : List PubMsg :=
  evs.filterMap (fun e => match e with | .publish m => some m | _ => none)

/-- The bucket as it stands after the deletions of a trace. -/
def applyDeletes (bucket : List Blob) (evs : List GcsEv) : List Blob :=
  bucket.filter (fun b => !((deletedNames evs).contains b.name))

/-- A drained (published-and-deleted) blob is never the marker itself. -/
theorem drainBlob_ne_lock (loads : String → Option String) (lockName : String)
    (b : Blob) (msgs : List PubMsg) (h : drainBlob loads lockName b = some msgs) :
    b.name ≠ lockName := by
  intro hb
  simp [drainBlob, hb] at h

/-- The drain loop never deletes the marker object. -/
theorem delete_lock_not_mem_drainEvents (loads : String → Option String)
    (lockName : String) (blobs : List Blob) :
    GcsEv.delete lockName ∉ drainEvents loads lockName blobs := by
  induction blobs with
  | nil => simp [drainEvents]
  | cons b rest ih =>
    cases hdb : drainBlob loads lockName b with
    | none => simpa [drainEvents, hdb] using ih
    | some msgs =>
      have hbn := drainBlob_ne_lock loads lockName b msgs hdb
      simp [drainEvents, hdb, ih, Ne.symm hbn]

/-- Every drained blob's delete and publishes occur in the loop trace. -/
theorem drained_blob_events_mem (loads : String → Option String)
    (lockName : String) (blobs : List Blob) (b : Blob) (msgs : List PubMsg)
    (hb : b ∈ blobs) (hs : drainBlob loads lockName b = some msgs) :
    GcsEv.delete b.name ∈ drainEvents loads lockName blobs ∧
    ∀ m ∈ msgs, GcsEv.publish m ∈ drainEvents loads lockName blobs := by
  induction blobs with
  | nil => simp at hb
  | cons a rest ih =>
    rcases List.mem_cons.mp hb with hba | hbr
    · subst hba
      constructor
      · simp [drainEvents, hs]
      · intro m hm
        simp only [drainEvents, hs, List.mem_append, List.mem_map]
        exact Or.inl (Or.inl ⟨m, hm, rfl⟩)
    · have hrec := ih hbr
      cases hda : drainBlob loads lockName a with
      | none => simpa [drainEvents, hda] using hrec
      | some m2 =>
        constructor
        · simp only [drainEvents, hda, List.mem_append]
          exact Or.inr hrec.1
        · intro m hm
          simp only [drainEvents, hda, List.mem_append]
          exact Or.inr (hrec.2 m hm)

/-- Membership in the deleted-name projection of a trace. -/
theorem mem_deletedNames (evs : List GcsEv) (n : String) :
    n ∈ deletedNames evs ↔ GcsEv.delete n ∈ evs := by
  simp only [deletedNames, List.mem_filterMap]
  constructor
  · rintro ⟨e, he, hfe⟩
    cases e with
    | publish m => simp at hfe
    | delete n' =>
      simp at hfe
      subst hfe
      exact he
  · intro h
    exact ⟨GcsEv.delete n, h, rfl⟩

/-- Publish events delete nothing. -/
theorem deletedNames_publishes (msgs : List PubMsg) :
    deletedNames (msgs.map GcsEv.publish) = [] := by
  induction msgs with
  | nil => rfl
  | cons m rest _ => simp [deletedNames, List.filterMap_cons]

/-- The loop deletes exactly the names of the blobs it drains, in order. -/
theorem deletedNames_drainEvents (loads : String → Option String)
    (lockName : String) (blobs : List Blob) :
    deletedNames (drainEvents loads lockName blobs) =
      (blobs.filter (fun b => (drainBlob loads lockName b).isSome)).map Blob.name := by
  induction blobs with
  | nil => rfl
  | cons b rest ih =>
    cases hdb : drainBlob loads lockName b with
    | none => simp [drainEvents, hdb, List.filter_cons, ih]
    | some msgs =>
      simp only [drainEvents, hdb]
      rw [show (msgs.map GcsEv.publish ++ [GcsEv.delete b.name] ++
          drainEvents loads lockName rest) = msgs.map GcsEv.publish ++
          ([GcsEv.delete b.name] ++ drainEvents loads lockName rest) by
        simp]
      simp only [deletedNames, List.filterMap_append]
      show deletedNames (msgs.map GcsEv.publish) ++
        (deletedNames [GcsEv.delete b.name] ++ deletedNames (drainEvents loads lockName rest)) = _
      rw [deletedNames_publishes, ih]
      simp [deletedNames, List.filterMap_cons, List.filter_cons, hdb]

/-- Every delete in the loop trace comes from a drained listed blob. -/
theorem delete_mem_drainEvents_origin (loads : String → Option String)
    (lockName : String) (blobs : List Blob) (n : String)
    (h : GcsEv.delete n ∈ drainEvents loads lockName blobs) :
    ∃ b, b ∈ blobs ∧ b.name = n ∧ (drainBlob loads lockName b).isSome := by
  have hmem : n ∈ deletedNames (drainEvents loads lockName blobs) :=
    (mem_deletedNames _ _).mpr h
  rw [deletedNames_drainEvents] at hmem
  obtain ⟨b, hb, hbn⟩ := List.mem_map.mp hmem
  obtain ⟨hb1, hb2⟩ := List.mem_filter.mp hb
  exact ⟨b, hb1, hbn, by simpa using hb2⟩

/-! ## Test fixtures for the drain step -/

/-- Test fixture: a model of `json.loads` on one line that rejects
exactly the line `"bad"` and parses everything else as itself. -/
def demoLoads (s : String) : Option String :=
  if s = "bad" then none else some s

/-- Test fixture: a record-bearing blob at a five-segment path whose
segments 2 and 3 are `RESOURCE` and `compute.Disk`. -/
def scenarioBlob : Blob :=
  { name := "a/b/RESOURCE/compute.Disk/a.json", content := "rec1" }

/-- Test fixture: the single message the drain publishes for
`scenarioBlob` under `demoLoads`. -/
def scenarioMsg : PubMsg :=
  { data := "rec1", observe_gcp_kind := exportAssetsKind,
    observe_gcp_asset_type := "compute.Disk",
    observe_gcp_content_type := "RESOURCE",
    observe_original_length := 4 }

/-- Test fixture: a bucket holding the marker for prefix `a/b/` and
`scenarioBlob`, and nothing else. -/
def scenarioBucket : List Blob :=
  [{ name := "a/b/operation_name.txt", content := "op-123" }, scenarioBlob]

/-- Test fixture: a record-bearing blob whose path splits into only two
segments. -/
def shortBlob : Blob := { name := "p/x.json", content := "rec1" }

/-- Test fixture: a bucket holding the marker for prefix `p/` and
`shortBlob`, and nothing else. -/
def cexBucket : List Blob :=
  [{ name := "p/operation_name.txt", content := "op-123" }, shortBlob]

/-- C4: calling `process_gcs_directory` on a prefix whose marker object
`operation_name.txt` does not exist is an idempotent no-op: it returns
the already-processed success response with status 200, publishes no
records, deletes no objects (the bucket is unchanged), and calling it
again in the resulting state returns the very same success result. -/
theorem process_gcs_directory_without_marker (loads : String → Option String)
    (bucket : List Blob) (pfx : String)
    (h : bucket.any (fun b => b.name = pfx ++ "operation_name.txt") = false) :
    process_gcs_directory loads bucket pfx =
      { events := [], response := lockAbsentResponse } ∧
    lockAbsentResponse.2 = 200 ∧
    publishedMsgs (process_gcs_directory loads bucket pfx).events = [] ∧
    deletedNames (process_gcs_directory loads bucket pfx).events = [] ∧
    applyDeletes bucket (process_gcs_directory loads bucket pfx).events = bucket ∧
    process_gcs_directory loads
        (applyDeletes bucket (process_gcs_directory loads bucket pfx).events) pfx =
      process_gcs_directory loads bucket pfx := by
  have he : process_gcs_directory loads bucket pfx =
      { events := [], response := lockAbsentResponse } := by
    simp [process_gcs_directory, h]
  have ha : applyDeletes bucket (process_gcs_directory loads bucket pfx).events =
      bucket := by
    rw [he]
    simp [applyDeletes, deletedNames]
  refine ⟨he, rfl, ?_, ?_, ha, ?_⟩
  · rw [he]
    rfl
  · rw [he]
    rfl
  · rw [ha]

/-- Witness for C4: on a bucket that holds a blob but no marker for the
requested prefix, the drain is a successful no-op and repeating it gives
the same result. -/
theorem process_gcs_directory_without_marker_witness :
    process_gcs_directory demoLoads [shortBlob] "p/" =
      { events := [], response := lockAbsentResponse } ∧
    lockAbsentResponse.2 = 200 ∧
    publishedMsgs (process_gcs_directory demoLoads [shortBlob] "p/").events = [] ∧
    deletedNames (process_gcs_directory demoLoads [shortBlob] "p/").events = [] ∧
    applyDeletes [shortBlob] (process_gcs_directory demoLoads [shortBlob] "p/").events =
      [shortBlob] ∧
    process_gcs_directory demoLoads
        (applyDeletes [shortBlob]
          (process_gcs_directory demoLoads [shortBlob] "p/").events) "p/" =
      process_gcs_directory demoLoads [shortBlob] "p/" :=
  process_gcs_directory_without_marker demoLoads [shortBlob] "p/" (by decide)

/-- C7: every message published for a drained blob is tagged with
content-type taken from path segment 2 and asset-type from path segment
3 (0-indexed) of the blob's name; any blob whose name splits into fewer
than five `/`-separated segments is skipped (it yields `none`, so no
publish and no delete), and a skipped blob does not abort the drain of
the remaining blobs — the loop trace simply continues without it. -/
theorem drain_tags_from_path_segments (loads : String → Option String)
    (lockName : String) (b : Blob) :
    (∀ msgs, drainBlob loads lockName b = some msgs →
      ∀ m ∈ msgs,
        m.observe_gcp_content_type = (splitOnChar '/' b.name).getD 2 "" ∧
        m.observe_gcp_asset_type = (splitOnChar '/' b.name).getD 3 "") ∧
    ((splitOnChar '/' b.name).length < 5 → drainBlob loads lockName b = none) ∧
    (∀ rest, drainBlob loads lockName b = none →
      drainEvents loads lockName (b :: rest) = drainEvents loads lockName rest) := by
  refine ⟨?_, ?_, ?_⟩
  · intro msgs hmsgs m hm
    simp only [drainBlob] at hmsgs
    split at hmsgs
    · exact Option.noConfusion hmsgs
    · split at hmsgs
      · exact Option.noConfusion hmsgs
      · split at hmsgs
        · exact Option.noConfusion hmsgs
        · split at hmsgs
          · exact Option.noConfusion hmsgs
          · split at hmsgs
            · exact Option.noConfusion hmsgs
            · obtain rfl : msgs = _ := (Option.some.injEq _ _ ▸ hmsgs).symm
              obtain ⟨a, _, rfl⟩ := List.mem_map.mp hm
              exact ⟨rfl, rfl⟩
  · intro hlen
    simp only [drainBlob]
    repeat' split
    all_goals rfl
  · intro rest hnone
    simp [drainEvents, hnone]

/-- Witness for C7: the end-to-end scenario — a prefix holding the
marker and one record-bearing blob at `a/b/RESOURCE/compute.Disk/a.json`
with one JSON line drains to exactly one publish tagged content-type
`RESOURCE` and asset-type `compute.Disk` (segments 2 and 3 of the path),
followed by the blob delete and then the marker delete, returning the
success response; a blob with a two-segment path is skipped. -/
theorem drain_tags_from_path_segments_witness :
    drainBlob demoLoads "a/b/operation_name.txt" scenarioBlob = some [scenarioMsg] ∧
    scenarioMsg.observe_gcp_content_type = (splitOnChar '/' scenarioBlob.name).getD 2 "" ∧
    scenarioMsg.observe_gcp_asset_type = (splitOnChar '/' scenarioBlob.name).getD 3 "" ∧
    scenarioMsg.observe_gcp_content_type = "RESOURCE" ∧
    scenarioMsg.observe_gcp_asset_type = "compute.Disk" ∧
    (splitOnChar '/' shortBlob.name).length < 5 ∧
    drainBlob demoLoads "p/operation_name.txt" shortBlob = none ∧
    process_gcs_directory demoLoads scenarioBucket "a/b/" =
      { events := [GcsEv.publish scenarioMsg,
                   GcsEv.delete "a/b/RESOURCE/compute.Disk/a.json",
                   GcsEv.delete "a/b/operation_name.txt"],
        response := drainSuccessResponse } := by
  refine ⟨by decide, ?_, ?_, by decide, by decide, by decide, ?_, by decide⟩
  · exact ((drain_tags_from_path_segments demoLoads "a/b/operation_name.txt"
      scenarioBlob).1 [scenarioMsg] (by decide) scenarioMsg (by decide)).1
  · exact ((drain_tags_from_path_segments demoLoads "a/b/operation_name.txt"
      scenarioBlob).1 [scenarioMsg] (by decide) scenarioMsg (by decide)).2
  · exact (drain_tags_from_path_segments demoLoads "p/operation_name.txt"
      shortBlob).2.1 (by decide)

/-- C1 as literally stated is violated by the code: with the marker
present and a single record-bearing blob whose path has fewer than five
segments, the run still reaches the marker delete and returns the
success message with status 200, even though that blob was neither
published nor deleted — an undrained record-bearing blob remains in the
bucket when the marker is deleted. -/
theorem marker_deleted_despite_undrained_blob :
    (process_gcs_directory demoLoads cexBucket "p/").response = drainSuccessResponse ∧
    drainSuccessResponse.2 = 200 ∧
    GcsEv.delete "p/operation_name.txt" ∈
      (process_gcs_directory demoLoads cexBucket "p/").events ∧
    ((splitOnChar '\n' shortBlob.content).filter (fun l => l ≠ "")).mapM demoLoads =
      some ["rec1"] ∧
    publishedMsgs (process_gcs_directory demoLoads cexBucket "p/").events = [] ∧
    GcsEv.delete shortBlob.name ∉
      (process_gcs_directory demoLoads cexBucket "p/").events ∧
    shortBlob ∈ applyDeletes cexBucket
      (process_gcs_directory demoLoads cexBucket "p/").events := by
  decide

/-- C1 (amended): when the marker is present, the marker delete is the
sole terminal action of `process_gcs_directory`: the trace is exactly
the drain-loop trace followed by one final marker delete, the loop
itself never deletes the marker, every blob the loop drains has all its
publishes and its delete inside the loop trace (hence strictly before
the marker delete), and the function then returns the success message
with status 200.  (The original claim's stronger reading — that no
undrained record-bearing blob remains at the marker delete — fails for
skipped blobs, see `marker_deleted_despite_undrained_blob`.) -/
theorem marker_delete_is_terminal (loads : String → Option String)
    (bucket : List Blob) (pfx : String)
    (h : bucket.any (fun b => b.name = pfx ++ "operation_name.txt") = true) :
    (process_gcs_directory loads bucket pfx).events =
      drainEvents loads (pfx ++ "operation_name.txt")
        (bucket.filter (fun b => strStartsWith b.name pfx)) ++
      [GcsEv.delete (pfx ++ "operation_name.txt")] ∧
    GcsEv.delete (pfx ++ "operation_name.txt") ∉
      drainEvents loads (pfx ++ "operation_name.txt")
        (bucket.filter (fun b => strStartsWith b.name pfx)) ∧
    (∀ b ∈ bucket.filter (fun b => strStartsWith b.name pfx), ∀ msgs,
      drainBlob loads (pfx ++ "operation_name.txt") b = some msgs →
      GcsEv.delete b.name ∈ drainEvents loads (pfx ++ "operation_name.txt")
          (bucket.filter (fun b => strStartsWith b.name pfx)) ∧
      ∀ m ∈ msgs, GcsEv.publish m ∈ drainEvents loads (pfx ++ "operation_name.txt")
          (bucket.filter (fun b => strStartsWith b.name pfx))) ∧
    (process_gcs_directory loads bucket pfx).response = drainSuccessResponse := by
  refine ⟨?_, delete_lock_not_mem_drainEvents _ _ _, ?_, ?_⟩
  · simp [process_gcs_directory, h]
  · intro b hb msgs hs
    exact drained_blob_events_mem _ _ _ b msgs hb hs
  · simp [process_gcs_directory, h]

/-- Witness for C1 (amended): on the end-to-end scenario bucket, the
trace is the loop trace plus a final marker delete, the drained blob's
delete is inside the loop trace, and the response is the success
message. -/
theorem marker_delete_is_terminal_witness :
    (process_gcs_directory demoLoads scenarioBucket "a/b/").events =
      drainEvents demoLoads ("a/b/" ++ "operation_name.txt")
        (scenarioBucket.filter (fun b => strStartsWith b.name "a/b/")) ++
      [GcsEv.delete ("a/b/" ++ "operation_name.txt")] ∧
    GcsEv.delete scenarioBlob.name ∈
      drainEvents demoLoads ("a/b/" ++ "operation_name.txt")
        (scenarioBucket.filter (fun b => strStartsWith b.name "a/b/")) ∧
    GcsEv.publish scenarioMsg ∈
      drainEvents demoLoads ("a/b/" ++ "operation_name.txt")
        (scenarioBucket.filter (fun b => strStartsWith b.name "a/b/")) ∧
    (process_gcs_directory demoLoads scenarioBucket "a/b/").response =
      drainSuccessResponse := by
  have H := marker_delete_is_terminal demoLoads scenarioBucket "a/b/" (by decide)
  have hb := H.2.2.1 scenarioBlob (by decide) [scenarioMsg] (by decide)
  exact ⟨H.1, hb.1, hb.2 scenarioMsg (by decide), H.2.2.2⟩

/-- C9: during a drain with the marker present (and distinct blob
names), any non-marker blob skipped by the loop — empty content, a line
failing JSON parsing, or a short path — is not deleted and remains in
the bucket, yet the run still deletes the marker and returns success;
and every deleted name is either the marker or the name of a blob that
was drained (all of its records published). -/
theorem skipped_blobs_survive_drain (loads : String → Option String)
    (bucket : List Blob) (pfx : String)
    (hm : bucket.any (fun b => b.name = pfx ++ "operation_name.txt") = true)
    (hnd : (bucket.map Blob.name).Nodup) :
    (∀ b ∈ bucket, drainBlob loads (pfx ++ "operation_name.txt") b = none →
      b.name ≠ pfx ++ "operation_name.txt" →
      GcsEv.delete b.name ∉ (process_gcs_directory loads bucket pfx).events ∧
      b ∈ applyDeletes bucket (process_gcs_directory loads bucket pfx).events) ∧
    GcsEv.delete (pfx ++ "operation_name.txt") ∈
      (process_gcs_directory loads bucket pfx).events ∧
    (process_gcs_directory loads bucket pfx).response = drainSuccessResponse ∧
    (∀ n, GcsEv.delete n ∈ (process_gcs_directory loads bucket pfx).events →
      n = pfx ++ "operation_name.txt" ∨
      ∃ b, b ∈ bucket ∧ b.name = n ∧
        (drainBlob loads (pfx ++ "operation_name.txt") b).isSome) := by
  have hev : (process_gcs_directory loads bucket pfx).events =
      drainEvents loads (pfx ++ "operation_name.txt")
        (bucket.filter (fun b => strStartsWith b.name pfx)) ++
      [GcsEv.delete (pfx ++ "operation_name.txt")] := by
    simp [process_gcs_directory, hm]
  have horigin : ∀ n,
      GcsEv.delete n ∈ (process_gcs_directory loads bucket pfx).events →
      n = pfx ++ "operation_name.txt" ∨
      ∃ b, b ∈ bucket ∧ b.name = n ∧
        (drainBlob loads (pfx ++ "operation_name.txt") b).isSome := by
    intro n hn
    rw [hev] at hn
    rcases List.mem_append.mp hn with hn | hn
    · obtain ⟨b, hb, hbn, hbs⟩ := delete_mem_drainEvents_origin _ _ _ _ hn
      exact Or.inr ⟨b, (List.mem_filter.mp hb).1, hbn, hbs⟩
    · left
      simpa using hn
  refine ⟨?_, ?_, ?_, horigin⟩
  · intro b hb hnone hneq
    have hnotdel : GcsEv.delete b.name ∉
        (process_gcs_directory loads bucket pfx).events := by
      intro hmem
      rcases horigin b.name hmem with h1 | ⟨b', hb', hb'n, hb's⟩
      · exact hneq h1
      · have hbb : b' = b := List.inj_on_of_nodup_map hnd hb' hb hb'n
        rw [hbb, hnone] at hb's
        simp at hb's
    refine ⟨hnotdel, ?_⟩
    have hnm : b.name ∉
        deletedNames (process_gcs_directory loads bucket pfx).events := by
      intro hmem
      exact hnotdel ((mem_deletedNames _ _).mp hmem)
    simp [applyDeletes, List.mem_filter, hb, hnm]
  · rw [hev]
    simp
  · simp [process_gcs_directory, hm]

/-- Witness for C9: on the counterexample bucket, the short-path blob is
skipped, not deleted and still present afterwards, while the marker is
deleted and the run reports success. -/
theorem skipped_blobs_survive_drain_witness :
    GcsEv.delete shortBlob.name ∉
      (process_gcs_directory demoLoads cexBucket "p/").events ∧
    shortBlob ∈ applyDeletes cexBucket
      (process_gcs_directory demoLoads cexBucket "p/").events ∧
    GcsEv.delete ("p/" ++ "operation_name.txt") ∈
      (process_gcs_directory demoLoads cexBucket "p/").events ∧
    (process_gcs_directory demoLoads cexBucket "p/").response =
      drainSuccessResponse := by
  have H := skipped_blobs_survive_drain demoLoads cexBucket "p/" (by decide) (by decide)
  have h1 := H.1 shortBlob (by decide) (by decide) (by decide)
  exact ⟨h1.1, h1.2, H.2.1, H.2.2.1⟩

/-! ## The export trigger: `export_assets` -/

/-- Python's `s[n:]`. -/
def strDrop (s : String) (n : Nat) : String :=
  String.mk (s.data.drop n)

/-- The default asset-type glob patterns of `main.py`. -/
def DEFAULT_ASSET_TYPES : List String :=
  ["aiplatform.googleapis.com.*", "anthos.googleapis.com.*",
   "apigateway.googleapis.com.*", "apikeys.googleapis.com.*",
   "appengine.googleapis.com.*", "apps.k8s.io.*",
   "artifactregistry.googleapis.com.*", "assuredworkloads.googleapis.com.*",
   "batch.k8s.io.*", "beyondcorp.googleapis.com.*",
   "bigquery.googleapis.com.*", "bigquerymigration.googleapis.com.*",
   "bigtableadmin.googleapis.com.*", "cloudbilling.googleapis.com.*",
   "clouddeploy.googleapis.com.*", "cloudfunctions.googleapis.com.*",
   "cloudkms.googleapis.com.*", "cloudresourcemanager.googleapis.com.*",
   "composer.googleapis.com.*", "compute.googleapis.com.*",
   "connectors.googleapis.com.*", "container.googleapis.com.*",
   "containerregistry.googleapis.com.*", "dataflow.googleapis.com.*",
   "dataform.googleapis.com.*", "datafusion.googleapis.com.*",
   "datamigration.googleapis.com.*", "dataplex.googleapis.com.*",
   "dataproc.googleapis.com.*", "datastream.googleapis.com.*",
   "dialogflow.googleapis.com.*", "dlp.googleapis.com.*",
   "dns.googleapis.com.*", "documentai.googleapis.com.*",
   "domains.googleapis.com.*", "eventarc.googleapis.com.*",
   "extensions.k8s.io.*", "file.googleapis.com.*",
   "firestore.googleapis.com.*", "gameservices.googleapis.com.*",
   "gkebackup.googleapis.com.*", "gkehub.googleapis.com.*",
   "healthcare.googleapis.com.*", "iam.googleapis.com.*",
   "ids.googleapis.com.*", "k8s.io.*",
   "logging.googleapis.com.*", "managedidentities.googleapis.com.*",
   "memcache.googleapis.com.*", "metastore.googleapis.com.*",
   "monitoring.googleapis.com.*", "networkconnectivity.googleapis.com.*",
   "networking.k8s.io.*", "networkmanagement.googleapis.com.*",
   "networkservices.googleapis.com.*", "orgpolicy.googleapis.com.*",
   "osconfig.googleapis.com.*", "privateca.googleapis.com.*",
   "pubsub.googleapis.com.*", "rbac.authorization.k8s.io.*",
   "redis.googleapis.com.*", "run.googleapis.com.*",
   "secretmanager.googleapis.com.*", "servicedirectory.googleapis.com.*",
   "servicemanagement.googleapis.com.*", "serviceusage.googleapis.com.*",
   "spanner.googleapis.com.*", "speech.googleapis.com.*",
   "sqladmin.googleapis.com.*", "storage.googleapis.com.*",
   "tpu.googleapis.com.*", "transcoder.googleapis.com.*",
   "vpcaccess.googleapis.com.*", "workflows.googleapis.com.*"]

/-- The default content types of `main.py`. -/
def DEFAULT_CONTENT_TYPES : List String := ["RESOURCE", "IAM_POLICY"]

/-- The keys of `main.py`'s `content_type_map`. -/
def content_type_map : List String :=
  ["RESOURCE", "IAM_POLICY", "ORG_POLICY", "ACCESS_POLICY"]

/-- An externally visible action of the export trigger: submitting an
export job, writing the operation-name marker, or enqueueing the
delayed status-check task. -/
inductive ExEv
  | submitJob (content_type : String) (asset_types : List String) (uriPfx : String)
  | writeMarker (path : String) (operation_name : String)
  | createTask (path : String)
deriving DecidableEq, Repr

/-- Whether an event is an export-job submission. -/
def ExEv.isSubmit : ExEv → Bool
  | .submitJob .. => true
  | _ => false

/-- Whether an event is a marker write. -/
def ExEv.isMarker : ExEv → Bool
  | .writeMarker .. => true
  | _ => false

/-- Whether an event is a task creation. -/
def ExEv.isTask : ExEv → Bool
  | .createTask .. => true
  | _ => false

/-- The external world of `export_assets`: the configured output bucket
and the three fallible services — job submission (returns the operation
name), marker upload, and Cloud Tasks creation — each modelled by what
it does for a given argument (`Except.error e` = raises `e`). -/
structure ExportEnv where
  outputBucket : String
  submitRes : String → Except String String
  uploadRes : String → Except String Unit
  taskRes : String → Except String Unit

/-- The decoded JSON body of the request, when it is a non-falsy dict:
the optional `asset_types` and `content_type` fields. -/
structure ReqData where
  asset_types : Option (List String)
  content_type : Option (List String)

/-- Overall outcome of `export_assets`: a returned `(message, status)`
tuple, the bare `return` (Python `None`), or an uncaught exception. -/
inductive ExportOutcome
  | ret (resp : String × Nat)
  | retNone
  | raised (msg : String)
deriving DecidableEq, Repr

/-- The message of the per-content-type `except` clause. -/
def exportFailMsg (ct e : String) : String :=
  "Failed to export content type " ++ ct ++ ". Error: " ++ e

/-- One iteration of `export_assets`'s per-content-type `try` block:
submit the export job, check the `gs://` format of the output bucket,
write the operation name to the marker object, and enqueue the delayed
status-check task; any raise inside is caught and turned into the
descriptive `(message, 500)` result (`some resp`), while success yields
`none`. -/
def exportOne (env : ExportEnv) (ts : String) (asset_types : List String)
    (ct : String) : List ExEv × Option (String × Nat) :=
  let uriPfx := env.outputBucket ++ "/asset_export_v2_" ++ ts ++ "/" ++ ct
  match env.submitRes ct with
  | .error e => ([], some (exportFailMsg ct e, 500))
  | .ok opName =>
    if strStartsWith env.outputBucket "gs://" then
      let bucketName := (splitOnChar '/' (strDrop env.outputBucket 5)).headD ""
      let path := "asset_export_v2_" ++ ts ++ "/" ++ ct
      let fullGcsPath := bucketName ++ "/" ++ path ++ "/operation_name.txt"
      match env.uploadRes (path ++ "/operation_name.txt") with
      | .error e =>
        ([ExEv.submitJob ct asset_types uriPfx], some (exportFailMsg ct e, 500))
      | .ok _ =>
        match env.taskRes fullGcsPath with
        | .error e =>
          ([ExEv.submitJob ct asset_types uriPfx,
            ExEv.writeMarker (path ++ "/operation_name.txt") opName],
           some (exportFailMsg ct e, 500))
        | .ok _ =>
          ([ExEv.submitJob ct asset_types uriPfx,
            ExEv.writeMarker (path ++ "/operation_name.txt") opName,
            ExEv.createTask fullGcsPath], none)
    else
      ([ExEv.submitJob ct asset_types uriPfx],
       some (exportFailMsg ct ("Invalid GCS URI: " ++ env.outputBucket), 500))

/-- The `for content_type in content_types` loop of `export_assets`: an
invalid content type raises an uncaught `ValueError`; a caught failure
makes the whole function return that `(message, 500)` immediately; when
every content type succeeds, the loop falls through to
`("Asset export triggered", 200)`. -/
def exportLoop (env : ExportEnv) (ts : String) (asset_types : List String) :
    List String → List ExEv × ExportOutcome
  | [] => ([], .ret ("Asset export triggered", 200))
  | ct :: rest =>
    if content_type_map.contains ct then
      match exportOne env ts asset_types ct with
      | (evs, some resp) => (evs, .ret resp)
      | (evs, none) =>
        let r := exportLoop env ts asset_types rest
        (evs ++ r.1, r.2)
    else ([], .raised ("Invalid CONTENT_TYPE: " ++ ct))

/-- `export_assets` from `main.py`: decode the request body (a raise is
caught and answered with a bare `return`), fall back to the default
asset types and content types when fields are missing or the body is
falsy, then run the per-content-type loop. -/
def export_assets (env : ExportEnv) (req : Except String (Option ReqData))
    (ts : String) : List ExEv × ExportOutcome :=
  match req with
  | .error _ => ([], .retNone)
  | .ok data =>
    let asset_types := match data with
      | some d => d.asset_types.getD DEFAULT_ASSET_TYPES
      | none => DEFAULT_ASSET_TYPES
    let content_types := match data with
      | some d => d.content_type.getD DEFAULT_CONTENT_TYPES
      | none => DEFAULT_CONTENT_TYPES
    exportLoop env ts asset_types content_types

/-- When all three services succeed and the bucket is a `gs://` URI, one
content type produces exactly its submit, marker-write and task events
and no failure. -/
theorem exportOne_ok (env : ExportEnv) (ts : String) (ats : List String)
    (ct o : String) (hs : env.submitRes ct = Except.ok o)
    (hu : ∀ p, env.uploadRes p = Except.ok ())
    (htk : ∀ p, env.taskRes p = Except.ok ())
    (hb : strStartsWith env.outputBucket "gs://" = true) :
    exportOne env ts ats ct =
      ([ExEv.submitJob ct ats (env.outputBucket ++ "/asset_export_v2_" ++ ts ++ "/" ++ ct),
        ExEv.writeMarker ("asset_export_v2_" ++ ts ++ "/" ++ ct ++ "/operation_name.txt") o,
        ExEv.createTask ((splitOnChar '/' (strDrop env.outputBucket 5)).headD "" ++ "/" ++
          ("asset_export_v2_" ++ ts ++ "/" ++ ct) ++ "/operation_name.txt")], none) := by
  simp only [exportOne, hs, hb, if_true, hu, htk]

/-- C5: for a request whose JSON body decodes to a falsy value (`{}` or
`None`), `export_assets` falls back to content types `RESOURCE` and
`IAM_POLICY` and the default asset-type list, and — when the submissions
succeed against a `gs://` bucket — submits exactly two export jobs (one
per content type, both with `DEFAULT_ASSET_TYPES`), writes exactly two
marker objects each holding its operation handle, enqueues exactly two
delayed status-check tasks, and returns `("Asset export triggered", 200)`. -/
theorem export_assets_empty_body_defaults (env : ExportEnv) (ts o1 o2 : String)
    (h1 : env.submitRes "RESOURCE" = Except.ok o1)
    (h2 : env.submitRes "IAM_POLICY" = Except.ok o2)
    (hu : ∀ p, env.uploadRes p = Except.ok ())
    (htk : ∀ p, env.taskRes p = Except.ok ())
    (hb : strStartsWith env.outputBucket "gs://" = true) :
    export_assets env (Except.ok none) ts =
      ([ExEv.submitJob "RESOURCE" DEFAULT_ASSET_TYPES
          (env.outputBucket ++ "/asset_export_v2_" ++ ts ++ "/" ++ "RESOURCE"),
        ExEv.writeMarker
          ("asset_export_v2_" ++ ts ++ "/" ++ "RESOURCE" ++ "/operation_name.txt") o1,
        ExEv.createTask ((splitOnChar '/' (strDrop env.outputBucket 5)).headD "" ++ "/" ++
          ("asset_export_v2_" ++ ts ++ "/" ++ "RESOURCE") ++ "/operation_name.txt"),
        ExEv.submitJob "IAM_POLICY" DEFAULT_ASSET_TYPES
          (env.outputBucket ++ "/asset_export_v2_" ++ ts ++ "/" ++ "IAM_POLICY"),
        ExEv.writeMarker
          ("asset_export_v2_" ++ ts ++ "/" ++ "IAM_POLICY" ++ "/operation_name.txt") o2,
        ExEv.createTask ((splitOnChar '/' (strDrop env.outputBucket 5)).headD "" ++ "/" ++
          ("asset_export_v2_" ++ ts ++ "/" ++ "IAM_POLICY") ++ "/operation_name.txt")],
       ExportOutcome.ret ("Asset export triggered", 200)) ∧
    (export_assets env (Except.ok none) ts).1.countP ExEv.isSubmit = 2 ∧
    (export_assets env (Except.ok none) ts).1.countP ExEv.isMarker = 2 ∧
    (export_assets env (Except.ok none) ts).1.countP ExEv.isTask = 2 := by
  have hc1 : content_type_map.contains "RESOURCE" = true := by decide
  have hc2 : content_type_map.contains "IAM_POLICY" = true := by decide
  have hloop : export_assets env (Except.ok none) ts =
      exportLoop env ts DEFAULT_ASSET_TYPES DEFAULT_CONTENT_TYPES := rfl
  have hev : export_assets env (Except.ok none) ts =
      ([ExEv.submitJob "RESOURCE" DEFAULT_ASSET_TYPES
          (env.outputBucket ++ "/asset_export_v2_" ++ ts ++ "/" ++ "RESOURCE"),
        ExEv.writeMarker
          ("asset_export_v2_" ++ ts ++ "/" ++ "RESOURCE" ++ "/operation_name.txt") o1,
        ExEv.createTask ((splitOnChar '/' (strDrop env.outputBucket 5)).headD "" ++ "/" ++
          ("asset_export_v2_" ++ ts ++ "/" ++ "RESOURCE") ++ "/operation_name.txt"),
        ExEv.submitJob "IAM_POLICY" DEFAULT_ASSET_TYPES
          (env.outputBucket ++ "/asset_export_v2_" ++ ts ++ "/" ++ "IAM_POLICY"),
        ExEv.writeMarker
          ("asset_export_v2_" ++ ts ++ "/" ++ "IAM_POLICY" ++ "/operation_name.txt") o2,
        ExEv.createTask ((splitOnChar '/' (strDrop env.outputBucket 5)).headD "" ++ "/" ++
          ("asset_export_v2_" ++ ts ++ "/" ++ "IAM_POLICY") ++ "/operation_name.txt")],
       ExportOutcome.ret ("Asset export triggered", 200)) := by
    rw [hloop]
    show exportLoop env ts DEFAULT_ASSET_TYPES ("RESOURCE" :: "IAM_POLICY" :: []) = _
    simp only [exportLoop, hc1, hc2, if_true,
      exportOne_ok env ts DEFAULT_ASSET_TYPES "RESOURCE" o1 h1 hu htk hb,
      exportOne_ok env ts DEFAULT_ASSET_TYPES "IAM_POLICY" o2 h2 hu htk hb]
    rfl
  refine ⟨hev, ?_, ?_, ?_⟩ <;>
    rw [hev] <;>
    simp [List.countP_cons, ExEv.isSubmit, ExEv.isMarker, ExEv.isTask]

/-- Test fixture: an export environment where every service succeeds. -/
def env5 : ExportEnv :=
  { outputBucket := "gs://bkt",
    submitRes := fun ct => Except.ok ("op-" ++ ct),
    uploadRes := fun _ => Except.ok (),
    taskRes := fun _ => Except.ok () }

/-- Witness for C5: in the all-success environment, the empty body
triggers the two default content-type exports and returns the success
tuple. -/
theorem export_assets_empty_body_defaults_witness :
    export_assets env5 (Except.ok none) "20230101" =
      ([ExEv.submitJob "RESOURCE" DEFAULT_ASSET_TYPES
          (env5.outputBucket ++ "/asset_export_v2_" ++ "20230101" ++ "/" ++ "RESOURCE"),
        ExEv.writeMarker
          ("asset_export_v2_" ++ "20230101" ++ "/" ++ "RESOURCE" ++ "/operation_name.txt")
          ("op-" ++ "RESOURCE"),
        ExEv.createTask ((splitOnChar '/' (strDrop env5.outputBucket 5)).headD "" ++ "/" ++
          ("asset_export_v2_" ++ "20230101" ++ "/" ++ "RESOURCE") ++ "/operation_name.txt"),
        ExEv.submitJob "IAM_POLICY" DEFAULT_ASSET_TYPES
          (env5.outputBucket ++ "/asset_export_v2_" ++ "20230101" ++ "/" ++ "IAM_POLICY"),
        ExEv.writeMarker
          ("asset_export_v2_" ++ "20230101" ++ "/" ++ "IAM_POLICY" ++ "/operation_name.txt")
          ("op-" ++ "IAM_POLICY"),
        ExEv.createTask ((splitOnChar '/' (strDrop env5.outputBucket 5)).headD "" ++ "/" ++
          ("asset_export_v2_" ++ "20230101" ++ "/" ++ "IAM_POLICY") ++ "/operation_name.txt")],
       ExportOutcome.ret ("Asset export triggered", 200)) ∧
    (export_assets env5 (Except.ok none) "20230101").1.countP ExEv.isSubmit = 2 ∧
    (export_assets env5 (Except.ok none) "20230101").1.countP ExEv.isMarker = 2 ∧
    (export_assets env5 (Except.ok none) "20230101").1.countP ExEv.isTask = 2 :=
  export_assets_empty_body_defaults env5 "20230101" ("op-" ++ "RESOURCE")
    ("op-" ++ "IAM_POLICY") rfl rfl (fun _ => rfl) (fun _ => rfl) (by decide)

/-- Test fixture: an export environment where the `RESOURCE` submission
raises and everything else succeeds. -/
def env6 : ExportEnv :=
  { outputBucket := "gs://bkt",
    submitRes := fun ct => if ct = "RESOURCE" then Except.error "boom" else Except.ok "op-ok",
    uploadRes := fun _ => Except.ok (),
    taskRes := fun _ => Except.ok () }

/-- C6 is violated by the code: when submitting the `RESOURCE` export
fails, `export_assets` returns the descriptive `(message, 500)`
immediately from inside the loop, so the remaining requested content
type `IAM_POLICY` is not processed at all — the event trace is empty (no
submit, no marker write, no task) even though `IAM_POLICY` was still
pending in the default content-type list. -/
theorem export_failure_aborts_siblings :
    DEFAULT_CONTENT_TYPES = ["RESOURCE", "IAM_POLICY"] ∧
    export_assets env6 (Except.ok none) "t" =
      ([], ExportOutcome.ret
        ("Failed to export content type RESOURCE. Error: boom", 500)) ∧
    (export_assets env6 (Except.ok none) "t").1.countP ExEv.isSubmit = 0 := by
  exact ⟨rfl, by decide, by decide⟩

/-- Any failing iteration reports the descriptive per-content-type
message with status 500. -/
theorem exportOne_fail_shape (env : ExportEnv) (ts : String) (ats : List String)
    (ct : String) (evs : List ExEv) (resp : String × Nat)
    (h : exportOne env ts ats ct = (evs, some resp)) :
    ∃ e, resp = (exportFailMsg ct e, 500) := by
  simp only [exportOne] at h
  cases hs : env.submitRes ct with
  | error e =>
    rw [hs] at h
    simp only [Prod.mk.injEq, Option.some.injEq] at h
    exact ⟨e, h.2.symm⟩
  | ok opName =>
    rw [hs] at h
    by_cases hb : strStartsWith env.outputBucket "gs://"
    · simp only [hb, if_true] at h
      cases hup : env.uploadRes ("asset_export_v2_" ++ ts ++ "/" ++ ct ++
          "/operation_name.txt") with
      | error e =>
        rw [hup] at h
        simp only [Prod.mk.injEq, Option.some.injEq] at h
        exact ⟨e, h.2.symm⟩
      | ok u =>
        rw [hup] at h
        cases htk : env.taskRes ((splitOnChar '/' (strDrop env.outputBucket 5)).headD ""
            ++ "/" ++ ("asset_export_v2_" ++ ts ++ "/" ++ ct) ++ "/operation_name.txt") with
        | error e =>
          rw [htk] at h
          simp only [Prod.mk.injEq, Option.some.injEq] at h
          exact ⟨e, h.2.symm⟩
        | ok u2 =>
          rw [htk] at h
          simp at h
    · simp only [hb, Bool.false_eq_true, if_false, Prod.mk.injEq,
        Option.some.injEq] at h
      exact ⟨"Invalid GCS URI: " ++ env.outputBucket, h.2.symm⟩

/-- C6 (amended): when the iteration for one content type fails
(submission, marker write, or task creation raised), `export_assets`
returns immediately from the loop: the overall result is exactly that
iteration's events and its descriptive message naming the content type
with status 500 — content types after the failing one are not processed
(no further events), while content types before it were already fully
processed. -/
theorem export_failure_aborts_request (env : ExportEnv) (ts : String)
    (ats : List String) (ct : String) (rest : List String) (evs : List ExEv)
    (resp : String × Nat)
    (hmem : content_type_map.contains ct = true)
    (hfail : exportOne env ts ats ct = (evs, some resp)) :
    exportLoop env ts ats (ct :: rest) = (evs, ExportOutcome.ret resp) ∧
    resp.2 = 500 ∧
    (∃ e, resp.1 = exportFailMsg ct e) := by
  obtain ⟨e, he⟩ := exportOne_fail_shape env ts ats ct evs resp hfail
  refine ⟨?_, by rw [he], ⟨e, by rw [he]⟩⟩
  simp only [exportLoop, hmem, if_true, hfail]

/-- Witness for C6 (amended): in the `RESOURCE`-failing environment, the
loop over the default content types returns the descriptive 500 at once
with no events, leaving `IAM_POLICY` unprocessed. -/
theorem export_failure_aborts_request_witness :
    exportLoop env6 "t" DEFAULT_ASSET_TYPES ("RESOURCE" :: ["IAM_POLICY"]) =
      ([], ExportOutcome.ret
        ("Failed to export content type RESOURCE. Error: boom", 500)) ∧
    (("Failed to export content type RESOURCE. Error: boom", (500 : Nat)) :
        String × Nat).2 = 500 := by
  have H := export_failure_aborts_request env6 "t" DEFAULT_ASSET_TYPES "RESOURCE"
    ["IAM_POLICY"] []
    ("Failed to export content type RESOURCE. Error: boom", 500)
    (by decide) (by decide)
  exact ⟨H.1, H.2.1⟩

/-- C8 is violated by the code: when decoding the JSON body raises, the
`except` clause logs and then executes a bare `return` — the function
returns Python `None` with no events, not a `(message, 500)` tuple such
as `("Internal Server Error", 500)`. -/
theorem decode_failure_returns_none :
    export_assets env6 (Except.error "bad json") "t" = ([], ExportOutcome.retNone) ∧
    ExportOutcome.retNone ≠ ExportOutcome.ret ("Internal Server Error", 500) :=
  ⟨rfl, by decide⟩

/-- C8 (amended): for every environment, timestamp and decode error, a
failing `request.get_json` makes `export_assets` perform no external
action and return `None` (the bare `return`), not a top-level 500
response. -/
theorem decode_failure_bare_return (env : ExportEnv) (ts e : String) :
    export_assets env (Except.error e) ts = ([], ExportOutcome.retNone) := rfl
